import Mathlib

/-!
Verification of the DaCoS data-processing module
(`src/lab_03/processor/dataprocessor.py`).

The module defines an abstract `DataProcessor` holding a data-source path,
an input dataset (`_dataset`, initially `None`) and an accumulated output
(`result`, initially `None`), together with shared helpers
`sort_data_by_col` (pandas `sort_values` on one column),
`remove_col_by_name` (pandas `drop`), and three concrete processors
(CSV, TXT, JSON) each implementing `read` (parse the source, reject
tables with fewer than 2 columns) and `run` (drop fixed columns, sort by
`directedBy` then `title`, and concatenate onto `result`).

The pandas dataframe engine is an external collaborator; it is modelled
here by a `Table` of named columns over an ordered cell type, with the
drop / single-column sort / concat operations the module invokes.
Parsing is external as well, so each `read` takes the parse outcome
(`Except.ok` table, or `Except.error` message for a raised exception) as
a parameter.  Operations that raise Python exceptions are modelled as
`Option`-valued, `none` meaning a propagated error.
-/

namespace DaCoS

/-- A pandas dataframe, modelled as an ordered list of named columns and a
list of rows; row `i` has its `j`-th cell under column name `cols[j]`. -/
structure Table (α : Type) where
  cols : List String
  rows : List (List α)
deriving DecidableEq

/-- Index of a column name in a column list (pandas column lookup);
`none` when the column is absent (pandas raises `KeyError`). -/
def colIdx (cols : List String) (c : String) : Option Nat :=
  match cols with
  | [] => none
  | x :: xs => if x = c then some 0 else (colIdx xs c).map (· + 1)

/-- Cells of one row that survive dropping the named columns. -/
def dropRow (cols names : List String) (r : List α) : List α :=
  ((cols.zip r).filter (fun p => !(names.contains p.1))).map (fun p => p.2)

/-- Model of pandas `DataFrame.drop(labels, axis=1)`: removes the named
columns; raises (returns `none`) when any named column is absent. -/
def df_drop (t : Table α) (names : List String) : Option (Table α) :=
  if names.all (fun c => t.cols.contains c) then
    some ⟨t.cols.filter (fun c => !(names.contains c)),
          t.rows.map (dropRow t.cols names)⟩
  else none

/-- Comparison of two rows on the cell at index `j`, with direction `asc`
(the `ascending` flag of pandas `sort_values`). -/
def rowLe [LinearOrder α] [Inhabited α] (j : Nat) (asc : Bool) (r₁ r₂ : List α) : Bool :=
  if asc then decide (r₁.getD j default ≤ r₂.getD j default)
  else decide (r₂.getD j default ≤ r₁.getD j default)

/-- Model of pandas `DataFrame.sort_values(by=[colname], ascending=asc)`:
a full deterministic reorder of the rows by the named column; raises
(returns `none`) when the column is absent. -/
def df_sort_values [LinearOrder α] [Inhabited α] (t : Table α) (colname : String)
    (asc : Bool) : Option (Table α) :=
  match colIdx t.cols colname with
  | none => none
  | some j => some ⟨t.cols, t.rows.insertionSort (fun a b => rowLe j asc a b = true)⟩

/-- Model of `pandas.concat([result, t], ignore_index=True)` as invoked by
`run`: pandas silently drops a `None` entry, so an absent accumulated
result yields `t` itself; otherwise the rows of `t` are appended (the two
tables have identical columns everywhere this is invoked). -/
def pandas_concat (result : Option (Table α)) (t : Table α) : Table α :=
  match result with
  | none => t
  | some r => ⟨r.cols, r.rows ++ t.rows⟩

/-- State of a `DataProcessor` instance: the `_dataset` attribute (input
table, `None` until a parse assigns it), the `result` attribute
(accumulated output, `None` initially), and the operator-facing log of
printed failure details. -/
structure ProcState (α : Type) where
  dataset : Option (Table α)
  result : Option (Table α)
  log : List String
deriving DecidableEq

/-- State produced by `DataProcessor.__init__`: both tables absent,
nothing printed. -/
def initState (α : Type) : ProcState α := ⟨none, none, []⟩

/-- Shared helper `DataProcessor.sort_data_by_col`: delegates to
`df.sort_values(by=[colname], ascending=asc)`. -/
def sort_data_by_col [LinearOrder α] [Inhabited α] (df : Table α) (colname : String)
    (asc : Bool) : Option (Table α) :=
  df_sort_values df colname asc

/-- Shared helper `DataProcessor.remove_col_by_name`: delegates to
`df.drop(colname, axis=1)`. -/
def remove_col_by_name (df : Table α) (colname : List String) : Option (Table α) :=
  df_drop df colname

/-- The `CsvDataProcessor.read` method.  Parsing is performed by the
external `pandas.read_csv`, whose outcome is the `parsed` argument.  On a
successful parse `_dataset` is assigned and `False` is returned when the
table has fewer than 2 columns; on a raised exception the assignment never
happens, the exception text is printed, and `False` is returned. -/
def csvRead (st : ProcState α) (parsed : Except String (Table α)) : ProcState α × Bool :=
  match parsed with
  | Except.ok t =>
      let st1 : ProcState α := { st with dataset := some t }
      if t.cols.length < 2 then (st1, false) else (st1, true)
  | Except.error e => ({ st with log := st.log ++ [e] }, false)

/-- The `TxtDataProcessor.read` method (parsing by `pandas.read_table`),
identical in shape to the CSV reader. -/
def txtRead (st : ProcState α) (parsed : Except String (Table α)) : ProcState α × Bool :=
  match parsed with
  | Except.ok t =>
      let st1 : ProcState α := { st with dataset := some t }
      if t.cols.length < 2 then (st1, false) else (st1, true)
  | Except.error e => ({ st with log := st.log ++ [e] }, false)

/-- The `JSONDataProcessor.read` method (parsing by `pandas.read_json`
with `lines=True`), identical in shape to the CSV reader. -/
def jsonRead (st : ProcState α) (parsed : Except String (Table α)) : ProcState α × Bool :=
  match parsed with
  | Except.ok t =>
      let st1 : ProcState α := { st with dataset := some t }
      if t.cols.length < 2 then (st1, false) else (st1, true)
  | Except.error e => ({ st with log := st.log ++ [e] }, false)

/-- The `CsvDataProcessor.run` method: drop `dateAdded` from `_dataset`,
then sort by each of `directedBy`, `title` in turn with `ascending=False`,
and concatenate the outcome onto `result`.  Accessing an absent
`_dataset` or a missing column raises, modelled as `none`. -/
def csvRun [LinearOrder α] [Inhabited α] (st : ProcState α) : Option (ProcState α) :=
  match st.dataset with
  | none => none
  | some ds =>
    match remove_col_by_name ds ["dateAdded"] with
    | none => none
    | some cleaned =>
      match List.foldlM (fun acc c => sort_data_by_col acc c false) cleaned
          ["directedBy", "title"] with
      | none => none
      | some sorted => some { st with result := some (pandas_concat st.result sorted) }

/-- The `TxtDataProcessor.run` method, textually identical to the CSV one
in the source. -/
def txtRun [LinearOrder α] [Inhabited α] (st : ProcState α) : Option (ProcState α) :=
  match st.dataset with
  | none => none
  | some ds =>
    match remove_col_by_name ds ["dateAdded"] with
    | none => none
    | some cleaned =>
      match List.foldlM (fun acc c => sort_data_by_col acc c false) cleaned
          ["directedBy", "title"] with
      | none => none
      | some sorted => some { st with result := some (pandas_concat st.result sorted) }

/-- The `JSONDataProcessor.run` method: drops `dateAdded` and `avgRating`
and sorts with `ascending=True`. -/
def jsonRun [LinearOrder α] [Inhabited α] (st : ProcState α) : Option (ProcState α) :=
  match st.dataset with
  | none => none
  | some ds =>
    match remove_col_by_name ds ["dateAdded", "avgRating"] with
    | none => none
    | some cleaned =>
      match List.foldlM (fun acc c => sort_data_by_col acc c true) cleaned
          ["directedBy", "title"] with
      | none => none
      | some sorted => some { st with result := some (pandas_concat st.result sorted) }

/-- The cleaned-and-sorted batch a `run` body computes from a dataset,
before concatenation: drop the given columns, then sort by `directedBy`
and then by `title` in the given direction. -/
def pipelineTransform [LinearOrder α] [Inhabited α] (drops : List String) (asc : Bool)
    (ds : Table α) : Option (Table α) :=
  match remove_col_by_name ds drops with
  | none => none
  | some cleaned =>
      List.foldlM (fun acc c => sort_data_by_col acc c asc) cleaned ["directedBy", "title"]

/-- Common shape of the three `run` methods: require `_dataset`, apply the
transform, and append the batch onto `result`. -/
def runWith [LinearOrder α] [Inhabited α] (drops : List String) (asc : Bool)
    (st : ProcState α) : Option (ProcState α) :=
  match st.dataset with
  | none => none
  | some ds =>
    match pipelineTransform drops asc ds with
    | none => none
    | some sorted => some { st with result := some (pandas_concat st.result sorted) }

/-- Rows of an accumulated result; an absent result holds no rows. -/
def resultRows (o : Option (Table α)) : List (List α) :=
  match o with
  | none => []
  | some t => t.rows

/-- Boolean check that consecutive rows are ordered on the cell at index
`j` in direction `asc`. -/
def sortedRows [LinearOrder α] [Inhabited α] (j : Nat) (asc : Bool) : List (List α) → Bool
  | [] => true
  | [_] => true
  | a :: b :: rest => rowLe j asc a b && sortedRows j asc (b :: rest)

/-- Boolean check that a table is ordered on the named column in direction
`asc`; false when the column is absent. -/
def sortedByCol [LinearOrder α] [Inhabited α] (t : Table α) (c : String) (asc : Bool) : Bool :=
  match colIdx t.cols c with
  | none => false
  | some j => sortedRows j asc t.rows

/-- Boolean check that an accumulated result (when present) does not carry
the named column. -/
def lacksCol (o : Option (Table α)) (c : String) : Bool :=
  match o with
  | none => true
  | some r => !(r.cols.contains c)

/-- Rows a `run` call appended: the suffix of the new result rows past the
old result rows. -/
def appendedBatch (st st' : ProcState α) : List (List α) :=
  (resultRows st'.result).drop (resultRows st.result).length

/-- Property of the table inside an `Option`, failing on `none`. -/
def onSome (P : Table α → Prop) : Option (Table α) → Prop
  | none => False
  | some t => P t

/-- Property of the state inside an `Option`, failing on `none`. -/
def onRun (P : ProcState α → Prop) : Option (ProcState α) → Prop
  | none => False
  | some st => P st

/-- Row count of the accumulated result of a processor state. -/
def rcount (st : ProcState α) : Nat := (resultRows st.result).length

/-- Behaviour of a `read` implementation on the two failure shapes: a
raised parse exception with text `e`, and a successful parse of an
under-shaped table `t`.  On the exception the return is `false`, the
accumulated result and the dataset are untouched, and the exception text
is printed; on the under-shaped parse the return is `false`, the result
and the log are untouched, and the dataset is overwritten with `t`. -/
def readFailBehavior (rd : ProcState α → Except String (Table α) → ProcState α × Bool)
    (st : ProcState α) (t : Table α) (e : String) : Prop :=
  (rd st (Except.error e)).2 = false ∧
  (rd st (Except.error e)).1.result = st.result ∧
  (rd st (Except.error e)).1.log = st.log ++ [e] ∧
  (rd st (Except.error e)).1.dataset = st.dataset ∧
  (rd st (Except.ok t)).2 = false ∧
  (rd st (Except.ok t)).1.result = st.result ∧
  (rd st (Except.ok t)).1.log = st.log ∧
  (rd st (Except.ok t)).1.dataset = some t

/-- Behaviour of a `read` implementation on a well-formed parse: the
return is `true` and the dataset is set to exactly the parsed table. -/
def readOkBehavior (rd : ProcState α → Except String (Table α) → ProcState α × Bool)
    (st : ProcState α) (t : Table α) : Prop :=
  (rd st (Except.ok t)).2 = true ∧ (rd st (Except.ok t)).1.dataset = some t

/-- Non-atomicity of a `read` implementation: an under-shaped parse has
already overwritten the dataset when `false` is returned, while a raised
parse exception leaves the dataset exactly as it was. -/
def readNonAtomic (rd : ProcState α → Except String (Table α) → ProcState α × Bool)
    (st : ProcState α) (t : Table α) (e : String) : Prop :=
  ((rd st (Except.ok t)).1.dataset = some t ∧ (rd st (Except.ok t)).2 = false) ∧
  ((rd st (Except.error e)).1.dataset = st.dataset ∧ (rd st (Except.error e)).2 = false)

/-- Sort behaviour of the three `run` methods on a dataset `ds`: the text
processors compute the batch with drops `[dateAdded]` and descending
sorts and append it, the JSON processor with drops
`[dateAdded, avgRating]` and ascending sorts; in each case the appended
batch is ordered on `title`, the dominant (last-applied) sort key, in the
processor's direction. -/
def runSortBehavior [LinearOrder α] [Inhabited α] (st : ProcState α) (ds : Table α) : Prop :=
  onSome (fun b => sortedByCol b "title" false = true ∧
      csvRun st = some { st with result := some (pandas_concat st.result b) } ∧
      txtRun st = some { st with result := some (pandas_concat st.result b) })
    (pipelineTransform ["dateAdded"] false ds) ∧
  onSome (fun b => sortedByCol b "title" true = true ∧
      jsonRun st = some { st with result := some (pandas_concat st.result b) })
    (pipelineTransform ["dateAdded", "avgRating"] true ds)

/-- Scenario of claim C4: a fresh CSV processor reads a table with
columns `[title, directedBy, dateAdded]` and 3 rows; the read returns
`true` and the single following `run` leaves a result with columns
`[title, directedBy]`, 3 rows, ordered by descending `title`. -/
def csvScenario [LinearOrder α] [Inhabited α] (r1 r2 r3 : List α) : Prop :=
  (csvRead (initState α)
      (Except.ok ⟨["title", "directedBy", "dateAdded"], [r1, r2, r3]⟩)).2 = true ∧
  onRun (fun st' => onSome (fun res => res.cols = ["title", "directedBy"] ∧
        res.rows.length = 3 ∧ sortedByCol res "title" false = true) st'.result)
    (csvRun (csvRead (initState α)
        (Except.ok ⟨["title", "directedBy", "dateAdded"], [r1, r2, r3]⟩)).1)

section Lemmas

variable {α : Type}

lemma colIdx_of_mem {cols : List String} {c : String} (h : c ∈ cols) :
    ∃ j, colIdx cols c = some j := by
  induction cols with
  | nil => cases h
  | cons x xs ih =>
      by_cases hx : x = c
      · exact ⟨0, by simp [colIdx, hx]⟩
      · have hmem : c ∈ xs := by
          rcases List.mem_cons.mp h with h1 | h1
          · exact absurd h1.symm hx
          · exact h1
        rcases ih hmem with ⟨j, hj⟩
        exact ⟨j + 1, by simp [colIdx, hx, hj]⟩

lemma rowLe_trans [LinearOrder α] [Inhabited α] (j : Nat) (asc : Bool) (a b c : List α)
    (h1 : rowLe j asc a b = true) (h2 : rowLe j asc b c = true) :
    rowLe j asc a c = true := by
  cases asc
  · simp only [rowLe, Bool.false_eq_true, if_false, decide_eq_true_eq] at *
    exact le_trans h2 h1
  · simp only [rowLe, if_true, decide_eq_true_eq] at *
    exact le_trans h1 h2

lemma rowLe_total [LinearOrder α] [Inhabited α] (j : Nat) (asc : Bool) (a b : List α) :
    rowLe j asc a b = true ∨ rowLe j asc b a = true := by
  cases asc
  · simp only [rowLe, Bool.false_eq_true, if_false, decide_eq_true_eq]
    exact le_total _ _
  · simp only [rowLe, if_true, decide_eq_true_eq]
    exact le_total _ _

lemma sortedRows_of_pairwise [LinearOrder α] [Inhabited α] (j : Nat) (asc : Bool) :
    ∀ l : List (List α), l.Pairwise (fun a b => rowLe j asc a b = true) →
      sortedRows j asc l = true
  | [], _ => rfl
  | [_], _ => rfl
  | a :: b :: rest, h => by
      rcases List.pairwise_cons.mp h with ⟨ha, hrest⟩
      have h1 : rowLe j asc a b = true := ha b (List.mem_cons_self b rest)
      have h2 := sortedRows_of_pairwise j asc (b :: rest) hrest
      simp [sortedRows, h1, h2]

lemma df_sort_spec [LinearOrder α] [Inhabited α] {t t' : Table α} {c : String} {asc : Bool}
    (h : df_sort_values t c asc = some t') :
    t'.cols = t.cols ∧ t'.rows.length = t.rows.length ∧ sortedByCol t' c asc = true := by
  unfold df_sort_values at h
  cases hidx : colIdx t.cols c with
  | none => rw [hidx] at h; cases h
  | some j =>
      rw [hidx] at h
      injection h with h'
      subst h'
      refine ⟨rfl, (List.perm_insertionSort _ t.rows).length_eq, ?_⟩
      unfold sortedByCol
      rw [hidx]
      haveI : IsTrans (List α) (fun a b => rowLe j asc a b = true) :=
        ⟨rowLe_trans j asc⟩
      haveI : IsTotal (List α) (fun a b => rowLe j asc a b = true) :=
        ⟨rowLe_total j asc⟩
      exact sortedRows_of_pairwise j asc _
        (List.sorted_insertionSort (fun a b => rowLe j asc a b = true) t.rows)

lemma df_sort_isSome [LinearOrder α] [Inhabited α] {t : Table α} {c : String} (asc : Bool)
    (h : c ∈ t.cols) : ∃ t', df_sort_values t c asc = some t' := by
  rcases colIdx_of_mem h with ⟨j, hj⟩
  exact ⟨_, by unfold df_sort_values; rw [hj]⟩

lemma df_drop_spec {t t' : Table α} {names : List String} (h : df_drop t names = some t') :
    t'.cols = t.cols.filter (fun c => !(names.contains c)) ∧
    t'.rows.length = t.rows.length := by
  unfold df_drop at h
  split at h
  · injection h with h'
    subst h'
    exact ⟨rfl, by simp⟩
  · cases h

lemma df_drop_eq_some {t : Table α} {names : List String}
    (h : names.all (fun c => t.cols.contains c) = true) :
    df_drop t names = some ⟨t.cols.filter (fun c => !(names.contains c)),
      t.rows.map (dropRow t.cols names)⟩ := by
  unfold df_drop
  rw [if_pos h]

lemma df_drop_eq_none {t : Table α} {names : List String}
    (h : ¬ names.all (fun c => t.cols.contains c) = true) :
    df_drop t names = none := by
  unfold df_drop
  rw [if_neg h]

lemma pipeline_eq [LinearOrder α] [Inhabited α] (drops : List String) (asc : Bool)
    (ds : Table α) :
    pipelineTransform drops asc ds =
      (remove_col_by_name ds drops).bind (fun cleaned =>
        (sort_data_by_col cleaned "directedBy" asc).bind (fun s1 =>
          sort_data_by_col s1 "title" asc)) := by
  unfold pipelineTransform
  cases remove_col_by_name ds drops with
  | none => rfl
  | some cleaned =>
      simp only [List.foldlM_cons, List.foldlM_nil, Option.bind_eq_bind, Option.some_bind]
      cases sort_data_by_col cleaned "directedBy" asc with
      | none => rfl
      | some s1 =>
          simp only [Option.some_bind]
          cases sort_data_by_col s1 "title" asc <;> rfl

lemma pipeline_spec [LinearOrder α] [Inhabited α] {drops : List String} {asc : Bool}
    {ds b : Table α} (h : pipelineTransform drops asc ds = some b) :
    b.cols = ds.cols.filter (fun c => !(drops.contains c)) ∧
    b.rows.length = ds.rows.length ∧
    sortedByCol b "title" asc = true := by
  rw [pipeline_eq] at h
  cases h0 : remove_col_by_name ds drops with
  | none => rw [h0] at h; cases h
  | some cleaned =>
      rw [h0] at h
      simp only [Option.some_bind] at h
      cases h1 : sort_data_by_col cleaned "directedBy" asc with
      | none => rw [h1] at h; cases h
      | some s1 =>
          rw [h1] at h
          simp only [Option.some_bind] at h
          rcases df_drop_spec h0 with ⟨hc0, hr0⟩
          rcases df_sort_spec h1 with ⟨hc1, hr1, _⟩
          rcases df_sort_spec h with ⟨hc2, hr2, hs2⟩
          exact ⟨by rw [hc2, hc1, hc0], by rw [hr2, hr1, hr0], hs2⟩

lemma pipeline_isSome [LinearOrder α] [Inhabited α] (drops : List String) (asc : Bool)
    (ds : Table α)
    (hdrop : drops.all (fun c => ds.cols.contains c) = true)
    (hdir : "directedBy" ∈ ds.cols.filter (fun c => !(drops.contains c)))
    (htit : "title" ∈ ds.cols.filter (fun c => !(drops.contains c))) :
    ∃ b, pipelineTransform drops asc ds = some b := by
  rw [pipeline_eq]
  have h0 : remove_col_by_name ds drops =
      some ⟨ds.cols.filter (fun c => !(drops.contains c)),
        ds.rows.map (dropRow ds.cols drops)⟩ :=
    df_drop_eq_some hdrop
  rw [h0]
  simp only [Option.some_bind]
  have hdir' : "directedBy" ∈
      (⟨ds.cols.filter (fun c => !(drops.contains c)),
        ds.rows.map (dropRow ds.cols drops)⟩ : Table α).cols := hdir
  rcases df_sort_isSome asc hdir' with ⟨s1, hs1⟩
  have hs1' : sort_data_by_col
      (⟨ds.cols.filter (fun c => !(drops.contains c)),
        ds.rows.map (dropRow ds.cols drops)⟩ : Table α) "directedBy" asc = some s1 := hs1
  rw [hs1']
  simp only [Option.some_bind]
  have hcols : s1.cols = ds.cols.filter (fun c => !(drops.contains c)) :=
    (df_sort_spec hs1).1
  rcases df_sort_isSome asc (show "title" ∈ s1.cols from hcols ▸ htit) with ⟨s2, hs2⟩
  exact ⟨s2, hs2⟩

lemma csvRun_eq [LinearOrder α] [Inhabited α] (st : ProcState α) :
    csvRun st = runWith ["dateAdded"] false st := by
  cases hds : st.dataset with
  | none => simp [csvRun, runWith, hds]
  | some ds =>
      cases hb : remove_col_by_name ds ["dateAdded"] with
      | none => simp [csvRun, runWith, pipelineTransform, hds, hb]
      | some cleaned =>
          cases hf : List.foldlM (fun acc c => sort_data_by_col acc c false) cleaned
              ["directedBy", "title"] with
          | none => simp [csvRun, runWith, pipelineTransform, hds, hb, hf]
          | some sorted => simp [csvRun, runWith, pipelineTransform, hds, hb, hf]

lemma txtRun_eq [LinearOrder α] [Inhabited α] (st : ProcState α) :
    txtRun st = runWith ["dateAdded"] false st := by
  cases hds : st.dataset with
  | none => simp [txtRun, runWith, hds]
  | some ds =>
      cases hb : remove_col_by_name ds ["dateAdded"] with
      | none => simp [txtRun, runWith, pipelineTransform, hds, hb]
      | some cleaned =>
          cases hf : List.foldlM (fun acc c => sort_data_by_col acc c false) cleaned
              ["directedBy", "title"] with
          | none => simp [txtRun, runWith, pipelineTransform, hds, hb, hf]
          | some sorted => simp [txtRun, runWith, pipelineTransform, hds, hb, hf]

lemma jsonRun_eq [LinearOrder α] [Inhabited α] (st : ProcState α) :
    jsonRun st = runWith ["dateAdded", "avgRating"] true st := by
  cases hds : st.dataset with
  | none => simp [jsonRun, runWith, hds]
  | some ds =>
      cases hb : remove_col_by_name ds ["dateAdded", "avgRating"] with
      | none => simp [jsonRun, runWith, pipelineTransform, hds, hb]
      | some cleaned =>
          cases hf : List.foldlM (fun acc c => sort_data_by_col acc c true) cleaned
              ["directedBy", "title"] with
          | none => simp [jsonRun, runWith, pipelineTransform, hds, hb, hf]
          | some sorted => simp [jsonRun, runWith, pipelineTransform, hds, hb, hf]

lemma runWith_spec [LinearOrder α] [Inhabited α] {drops : List String} {asc : Bool}
    {st st' : ProcState α} (h : runWith drops asc st = some st') :
    ∃ ds b, st.dataset = some ds ∧ pipelineTransform drops asc ds = some b ∧
      st' = { st with result := some (pandas_concat st.result b) } := by
  cases hds : st.dataset with
  | none => simp [runWith, hds] at h
  | some ds =>
      simp only [runWith, hds] at h
      cases hb : pipelineTransform drops asc ds with
      | none => rw [hb] at h; cases h
      | some b =>
          rw [hb] at h
          injection h with h'
          exact ⟨ds, b, rfl, hb, h'.symm⟩

lemma runWith_of [LinearOrder α] [Inhabited α] {drops : List String} {asc : Bool}
    {st : ProcState α} {ds b : Table α}
    (hds : st.dataset = some ds) (hb : pipelineTransform drops asc ds = some b) :
    runWith drops asc st = some { st with result := some (pandas_concat st.result b) } := by
  simp only [runWith, hds, hb]

lemma pandas_concat_rows (o : Option (Table α)) (b : Table α) :
    (pandas_concat o b).rows = resultRows o ++ b.rows := by
  cases o <;> simp [pandas_concat, resultRows]

lemma resultRows_some (t : Table α) : resultRows (some t) = t.rows := rfl

lemma runWith_twice [LinearOrder α] [Inhabited α] {drops : List String} {asc : Bool}
    {st st1 st2 : ProcState α} (h0 : st.result = none)
    (h1 : runWith drops asc st = some st1) (h2 : runWith drops asc st1 = some st2) :
    st1.result.isSome = true ∧ rcount st2 = 2 * rcount st1 := by
  rcases runWith_spec h1 with ⟨ds, b, hds, hb, hst1⟩
  subst hst1
  rcases runWith_spec h2 with ⟨ds2, b2, hds2, hb2, hst2⟩
  subst hst2
  dsimp only at hds2
  have hdseq : ds2 = ds := by
    rw [hds] at hds2
    exact (Option.some.inj hds2).symm
  subst hdseq
  have hbeq : b2 = b := by
    rw [hb] at hb2
    exact (Option.some.inj hb2).symm
  subst hbeq
  constructor
  · rfl
  · simp [rcount, resultRows, pandas_concat_rows, h0, Nat.two_mul]

lemma runWith_lacks [LinearOrder α] [Inhabited α] {drops : List String} {asc : Bool}
    {st st' : ProcState α} {c : String}
    (hmem : drops.contains c = true)
    (hprev : lacksCol st.result c = true)
    (h : runWith drops asc st = some st') :
    lacksCol st'.result c = true := by
  rcases runWith_spec h with ⟨ds, b, hds, hb, hst⟩
  subst hst
  have hbc : c ∉ b.cols := by
    rw [(pipeline_spec hb).1]
    intro hmem2
    rcases List.mem_filter.mp hmem2 with ⟨_, hp⟩
    simp only [Bool.not_eq_true'] at hp
    rw [hmem] at hp
    exact Bool.noConfusion hp
  cases hres : st.result with
  | none =>
      simp only [lacksCol, pandas_concat]
      simpa using hbc
  | some r =>
      rw [hres] at hprev
      simp only [lacksCol] at hprev
      simp only [lacksCol, pandas_concat]
      exact hprev

lemma runWith_frame [LinearOrder α] [Inhabited α] {drops : List String} {asc : Bool}
    {st st1 st2 : ProcState α}
    (h1 : runWith drops asc st = some st1) (h2 : runWith drops asc st1 = some st2) :
    st1.dataset = st.dataset ∧ st2.dataset = st.dataset ∧
    resultRows st1.result = resultRows st.result ++ appendedBatch st st1 ∧
    appendedBatch st1 st2 = appendedBatch st st1 := by
  rcases runWith_spec h1 with ⟨ds, b, hds, hb, hst1⟩
  subst hst1
  rcases runWith_spec h2 with ⟨ds2, b2, hds2, hb2, hst2⟩
  subst hst2
  dsimp only at hds2 hb2
  have hdseq : ds = ds2 := Option.some.inj (hds.symm.trans hds2)
  subst hdseq
  have hbeq : b = b2 := Option.some.inj (hb.symm.trans hb2)
  subst hbeq
  refine ⟨rfl, rfl, ?_, ?_⟩
  · dsimp only [appendedBatch]
    simp only [resultRows_some, pandas_concat_rows]
    rw [List.drop_left]
  · dsimp only [appendedBatch]
    simp only [resultRows_some, pandas_concat_rows]
    rw [List.drop_left, List.drop_left]

end Lemmas

section Claims

variable {α : Type}

/-- Claim C1, counterexample.  The claim asserts that every failing `read`
logs a failure detail and leaves RawTable unusable.  At the concrete input
below a CSV `read` of a one-column table returns `false` yet prints
nothing, and a CSV `read` hitting a parse exception after a previous
successful read leaves `_dataset` holding a usable two-column table. -/
theorem csvRead_fail_without_log_cex :
    (csvRead (initState Nat) (Except.ok ⟨["only"], [[1], [2]]⟩)).2 = false ∧
    (csvRead (initState Nat) (Except.ok ⟨["only"], [[1], [2]]⟩)).1.log = [] ∧
    (csvRead (⟨some ⟨["title", "directedBy"], [[5, 6]]⟩, none, []⟩ : ProcState Nat)
        (Except.error "boom")).1.dataset = some ⟨["title", "directedBy"], [[5, 6]]⟩ ∧
    (csvRead (⟨some ⟨["title", "directedBy"], [[5, 6]]⟩, none, []⟩ : ProcState Nat)
        (Except.error "boom")).2 = false := by
  decide

/-- Claim C1, amended.  For every processor format, `read` on a raised
parse exception or on a parse with fewer than 2 columns returns `false`
without propagating, and leaves the accumulated result untouched; the
failure detail is printed only in the exception case, where the dataset
keeps its previous value, while the under-shaped case silently overwrites
the dataset with the under-shaped table. -/
theorem read_failure_swallowed (st : ProcState α) (t : Table α) (e : String)
    (h : t.cols.length < 2) :
    readFailBehavior csvRead st t e ∧ readFailBehavior txtRead st t e ∧
    readFailBehavior jsonRead st t e := by
  refine ⟨?_, ?_, ?_⟩ <;> simp [readFailBehavior, csvRead, txtRead, jsonRead, h]

/-- Witness for the amended C1 at a concrete one-column table. -/
theorem read_failure_swallowed_witness :
    readFailBehavior csvRead (initState Nat) ⟨["only"], [[1]]⟩ "boom" ∧
    readFailBehavior txtRead (initState Nat) ⟨["only"], [[1]]⟩ "boom" ∧
    readFailBehavior jsonRead (initState Nat) ⟨["only"], [[1]]⟩ "boom" :=
  read_failure_swallowed (initState Nat) ⟨["only"], [[1]]⟩ "boom" (by decide)

/-- Claim C6.  For every processor format, `read` on a successful parse
producing at least 2 columns returns `true` and sets the dataset to
exactly the parsed table. -/
theorem read_wellformed_populates (st : ProcState α) (t : Table α)
    (h : 2 ≤ t.cols.length) :
    readOkBehavior csvRead st t ∧ readOkBehavior txtRead st t ∧
    readOkBehavior jsonRead st t := by
  have hlt : ¬ t.cols.length < 2 := Nat.not_lt.mpr h
  refine ⟨?_, ?_, ?_⟩ <;> simp [readOkBehavior, csvRead, txtRead, jsonRead, hlt]

/-- Witness for C6 at a concrete two-column table. -/
theorem read_wellformed_populates_witness :
    readOkBehavior csvRead (initState Nat) ⟨["title", "directedBy"], [[1, 2]]⟩ ∧
    readOkBehavior txtRead (initState Nat) ⟨["title", "directedBy"], [[1, 2]]⟩ ∧
    readOkBehavior jsonRead (initState Nat) ⟨["title", "directedBy"], [[1, 2]]⟩ :=
  read_wellformed_populates (initState Nat) ⟨["title", "directedBy"], [[1, 2]]⟩ (by decide)

/-- Claim C9.  A failing `read` is not atomic on the dataset: when the
parse succeeds with fewer than 2 columns the dataset has already been
overwritten with the under-shaped table, while a raised parse exception
leaves the dataset with whatever value it held before the call. -/
theorem read_not_atomic (st : ProcState α) (t : Table α) (e : String)
    (h : t.cols.length < 2) :
    readNonAtomic csvRead st t e ∧ readNonAtomic txtRead st t e ∧
    readNonAtomic jsonRead st t e := by
  refine ⟨?_, ?_, ?_⟩ <;> simp [readNonAtomic, csvRead, txtRead, jsonRead, h]

/-- Witness for C9: a processor that already read a usable table keeps it
through an exception, and an under-shaped parse replaces it. -/
theorem read_not_atomic_witness :
    readNonAtomic csvRead (⟨some ⟨["a", "b"], []⟩, none, []⟩ : ProcState Nat)
      ⟨["only"], [[7]]⟩ "oops" ∧
    readNonAtomic txtRead (⟨some ⟨["a", "b"], []⟩, none, []⟩ : ProcState Nat)
      ⟨["only"], [[7]]⟩ "oops" ∧
    readNonAtomic jsonRead (⟨some ⟨["a", "b"], []⟩, none, []⟩ : ProcState Nat)
      ⟨["only"], [[7]]⟩ "oops" :=
  read_not_atomic ⟨some ⟨["a", "b"], []⟩, none, []⟩ ⟨["only"], [[7]]⟩ "oops" (by decide)

/-- Claim C8.  Calling any `run` while the dataset is still the initial
absent value is an error surfaced to the caller (the Python code raises
on `None._dataset`), never a silent no-op. -/
theorem run_before_read_errors [LinearOrder α] [Inhabited α] (st : ProcState α)
    (h : st.dataset = none) :
    csvRun st = none ∧ txtRun st = none ∧ jsonRun st = none := by
  refine ⟨?_, ?_, ?_⟩ <;> simp [csvRun, txtRun, jsonRun, h]

/-- Witness for C8 at a freshly constructed processor. -/
theorem run_before_read_errors_witness :
    csvRun (initState Nat) = none ∧ txtRun (initState Nat) = none ∧
    jsonRun (initState Nat) = none :=
  run_before_read_errors (initState Nat) rfl

/-- Claim C5.  For the JSON processor, a successful `read` of a table with
at least 2 columns but no `avgRating` column is not rejected, yet the
following `run` raises (drop of a missing column), with no recovery. -/
theorem json_run_missing_avgRating [LinearOrder α] [Inhabited α] (st : ProcState α)
    (t : Table α) (h2 : 2 ≤ t.cols.length) (hav : t.cols.contains "avgRating" = false) :
    (jsonRead st (Except.ok t)).2 = true ∧
    jsonRun (jsonRead st (Except.ok t)).1 = none := by
  have hlt : ¬ t.cols.length < 2 := Nat.not_lt.mpr h2
  have hds : (jsonRead st (Except.ok t)).1.dataset = some t := by
    simp [jsonRead, hlt]
  refine ⟨by simp [jsonRead, hlt], ?_⟩
  rw [jsonRun_eq]
  have hdrop : remove_col_by_name t ["dateAdded", "avgRating"] = none := by
    refine df_drop_eq_none ?_
    intro hall
    simp only [List.all_cons, List.all_nil, Bool.and_true, Bool.and_eq_true] at hall
    rw [hav] at hall
    exact Bool.false_ne_true hall.2
  have hpipe : pipelineTransform ["dateAdded", "avgRating"] true t = none := by
    rw [pipeline_eq, hdrop]
    rfl
  simp [runWith, hds, hpipe]

/-- Witness for C5 at a concrete three-column table lacking avgRating. -/
theorem json_run_missing_avgRating_witness :
    (jsonRead (initState Nat)
        (Except.ok ⟨["title", "directedBy", "dateAdded"], [[1, 2, 3]]⟩)).2 = true ∧
    jsonRun (jsonRead (initState Nat)
        (Except.ok ⟨["title", "directedBy", "dateAdded"], [[1, 2, 3]]⟩)).1 = none :=
  json_run_missing_avgRating (initState Nat) ⟨["title", "directedBy", "dateAdded"], [[1, 2, 3]]⟩
    (by decide) (by decide)

/-- Claim C2.  On any dataset with the required columns, each `run`
succeeds and the batch it appends to the result is ordered on `title`,
the dominant (last-applied) sort key: descending for the CSV and TXT
processors, ascending for the JSON processor. -/
theorem run_sorts_title_dominant [LinearOrder α] [Inhabited α]
    (st : ProcState α) (ds : Table α) (hds : st.dataset = some ds)
    (htit : "title" ∈ ds.cols) (hdir : "directedBy" ∈ ds.cols)
    (hdate : "dateAdded" ∈ ds.cols) (havg : "avgRating" ∈ ds.cols) :
    runSortBehavior st ds := by
  constructor
  · have hdrop : (["dateAdded"] : List String).all (fun c => ds.cols.contains c) = true := by
      simp only [List.all_cons, List.all_nil, Bool.and_true]
      simpa using hdate
    have hdir' : "directedBy" ∈
        ds.cols.filter (fun c => !((["dateAdded"] : List String).contains c)) :=
      List.mem_filter.mpr ⟨hdir, by decide⟩
    have htit' : "title" ∈
        ds.cols.filter (fun c => !((["dateAdded"] : List String).contains c)) :=
      List.mem_filter.mpr ⟨htit, by decide⟩
    rcases pipeline_isSome ["dateAdded"] false ds hdrop hdir' htit' with ⟨b, hb⟩
    rw [hb]
    simp only [onSome]
    refine ⟨(pipeline_spec hb).2.2, ?_, ?_⟩
    · rw [csvRun_eq]
      exact runWith_of hds hb
    · rw [txtRun_eq]
      exact runWith_of hds hb
  · have hdrop : (["dateAdded", "avgRating"] : List String).all
        (fun c => ds.cols.contains c) = true := by
      simp only [List.all_cons, List.all_nil, Bool.and_true, Bool.and_eq_true]
      constructor
      · simpa using hdate
      · simpa using havg
    have hdir' : "directedBy" ∈
        ds.cols.filter (fun c => !((["dateAdded", "avgRating"] : List String).contains c)) :=
      List.mem_filter.mpr ⟨hdir, by decide⟩
    have htit' : "title" ∈
        ds.cols.filter (fun c => !((["dateAdded", "avgRating"] : List String).contains c)) :=
      List.mem_filter.mpr ⟨htit, by decide⟩
    rcases pipeline_isSome ["dateAdded", "avgRating"] true ds hdrop hdir' htit' with ⟨b, hb⟩
    rw [hb]
    simp only [onSome]
    refine ⟨(pipeline_spec hb).2.2, ?_⟩
    rw [jsonRun_eq]
    exact runWith_of hds hb

/-- Witness for C2 at a concrete four-column, three-row dataset. -/
theorem run_sorts_title_dominant_witness :
    runSortBehavior
      (⟨some ⟨["title", "directedBy", "dateAdded", "avgRating"],
          [[3, 1, 0, 9], [1, 2, 0, 8], [2, 2, 0, 7]]⟩, none, []⟩ : ProcState Nat)
      ⟨["title", "directedBy", "dateAdded", "avgRating"],
        [[3, 1, 0, 9], [1, 2, 0, 8], [2, 2, 0, 7]]⟩ :=
  run_sorts_title_dominant _ _ rfl (by decide) (by decide) (by decide) (by decide)

/-- Claim C3.  For each processor separately, on its own instance:
starting from a state with no accumulated result, two successive
successful `run` calls leave a result that exists after the first call
and whose row count after the second call is exactly twice the row count
after the first.  Each processor's instance is quantified independently,
so the statement covers text-processor instances whose dataset lacks the
`avgRating` column the JSON processor needs. -/
theorem run_accumulates [LinearOrder α] [Inhabited α]
    (stA stA1 stA2 stB stB1 stB2 stC stC1 stC2 : ProcState α)
    (hA0 : stA.result = none)
    (hA1 : csvRun stA = some stA1) (hA2 : csvRun stA1 = some stA2)
    (hB0 : stB.result = none)
    (hB1 : txtRun stB = some stB1) (hB2 : txtRun stB1 = some stB2)
    (hC0 : stC.result = none)
    (hC1 : jsonRun stC = some stC1) (hC2 : jsonRun stC1 = some stC2) :
    (stA1.result.isSome = true ∧ rcount stA2 = 2 * rcount stA1) ∧
    (stB1.result.isSome = true ∧ rcount stB2 = 2 * rcount stB1) ∧
    (stC1.result.isSome = true ∧ rcount stC2 = 2 * rcount stC1) := by
  rw [csvRun_eq] at hA1
  rw [csvRun_eq] at hA2
  rw [txtRun_eq] at hB1
  rw [txtRun_eq] at hB2
  rw [jsonRun_eq] at hC1
  rw [jsonRun_eq] at hC2
  exact ⟨runWith_twice hA0 hA1 hA2, runWith_twice hB0 hB1 hB2, runWith_twice hC0 hC1 hC2⟩

/-- Witness for C3.  The CSV and TXT instances run over a three-column
dataset with no `avgRating` (the spec scenario shape), the JSON instance
over a four-column dataset; the states after each run are spelled out. -/
theorem run_accumulates_witness :
    ((⟨some ⟨["title", "directedBy", "dateAdded"], [[1, 2, 3]]⟩,
        some ⟨["title", "directedBy"], [[1, 2]]⟩, []⟩ :
          ProcState Nat).result.isSome = true ∧
      rcount (⟨some ⟨["title", "directedBy", "dateAdded"], [[1, 2, 3]]⟩,
        some ⟨["title", "directedBy"], [[1, 2], [1, 2]]⟩, []⟩ : ProcState Nat) =
      2 * rcount (⟨some ⟨["title", "directedBy", "dateAdded"], [[1, 2, 3]]⟩,
        some ⟨["title", "directedBy"], [[1, 2]]⟩, []⟩ : ProcState Nat)) ∧
    ((⟨some ⟨["title", "directedBy", "dateAdded"], [[1, 2, 3]]⟩,
        some ⟨["title", "directedBy"], [[1, 2]]⟩, []⟩ :
          ProcState Nat).result.isSome = true ∧
      rcount (⟨some ⟨["title", "directedBy", "dateAdded"], [[1, 2, 3]]⟩,
        some ⟨["title", "directedBy"], [[1, 2], [1, 2]]⟩, []⟩ : ProcState Nat) =
      2 * rcount (⟨some ⟨["title", "directedBy", "dateAdded"], [[1, 2, 3]]⟩,
        some ⟨["title", "directedBy"], [[1, 2]]⟩, []⟩ : ProcState Nat)) ∧
    ((⟨some ⟨["title", "directedBy", "dateAdded", "avgRating"], [[1, 2, 3, 4]]⟩,
        some ⟨["title", "directedBy"], [[1, 2]]⟩, []⟩ :
          ProcState Nat).result.isSome = true ∧
      rcount (⟨some ⟨["title", "directedBy", "dateAdded", "avgRating"], [[1, 2, 3, 4]]⟩,
        some ⟨["title", "directedBy"], [[1, 2], [1, 2]]⟩, []⟩ : ProcState Nat) =
      2 * rcount (⟨some ⟨["title", "directedBy", "dateAdded", "avgRating"], [[1, 2, 3, 4]]⟩,
        some ⟨["title", "directedBy"], [[1, 2]]⟩, []⟩ : ProcState Nat)) :=
  run_accumulates
    ⟨some ⟨["title", "directedBy", "dateAdded"], [[1, 2, 3]]⟩, none, []⟩
    ⟨some ⟨["title", "directedBy", "dateAdded"], [[1, 2, 3]]⟩,
      some ⟨["title", "directedBy"], [[1, 2]]⟩, []⟩
    ⟨some ⟨["title", "directedBy", "dateAdded"], [[1, 2, 3]]⟩,
      some ⟨["title", "directedBy"], [[1, 2], [1, 2]]⟩, []⟩
    ⟨some ⟨["title", "directedBy", "dateAdded"], [[1, 2, 3]]⟩, none, []⟩
    ⟨some ⟨["title", "directedBy", "dateAdded"], [[1, 2, 3]]⟩,
      some ⟨["title", "directedBy"], [[1, 2]]⟩, []⟩
    ⟨some ⟨["title", "directedBy", "dateAdded"], [[1, 2, 3]]⟩,
      some ⟨["title", "directedBy"], [[1, 2], [1, 2]]⟩, []⟩
    ⟨some ⟨["title", "directedBy", "dateAdded", "avgRating"], [[1, 2, 3, 4]]⟩, none, []⟩
    ⟨some ⟨["title", "directedBy", "dateAdded", "avgRating"], [[1, 2, 3, 4]]⟩,
      some ⟨["title", "directedBy"], [[1, 2]]⟩, []⟩
    ⟨some ⟨["title", "directedBy", "dateAdded", "avgRating"], [[1, 2, 3, 4]]⟩,
      some ⟨["title", "directedBy"], [[1, 2], [1, 2]]⟩, []⟩
    rfl (by decide) (by decide) rfl (by decide) (by decide) rfl (by decide) (by decide)

/-- Claim C4.  A fresh CSV processor reading a table with exactly the
columns title, directedBy, dateAdded and 3 rows gets `true` from `read`,
and one `run` leaves a result with exactly the columns title and
directedBy, 3 rows, ordered by descending title as the dominant key. -/
theorem csv_scenario_three_rows [LinearOrder α] [Inhabited α] (r1 r2 r3 : List α) :
    csvScenario r1 r2 r3 := by
  have hread : csvRead (initState α)
      (Except.ok ⟨["title", "directedBy", "dateAdded"], [r1, r2, r3]⟩) =
      (⟨some ⟨["title", "directedBy", "dateAdded"], [r1, r2, r3]⟩, none, []⟩, true) := by
    simp [csvRead, initState]
  have hds : (csvRead (initState α)
      (Except.ok ⟨["title", "directedBy", "dateAdded"], [r1, r2, r3]⟩)).1.dataset =
      some ⟨["title", "directedBy", "dateAdded"], [r1, r2, r3]⟩ := by
    rw [hread]
  have hres0 : (csvRead (initState α)
      (Except.ok ⟨["title", "directedBy", "dateAdded"], [r1, r2, r3]⟩)).1.result = none := by
    rw [hread]
  have hdrop : (["dateAdded"] : List String).all
      (fun c => (⟨["title", "directedBy", "dateAdded"], [r1, r2, r3]⟩ :
        Table α).cols.contains c) = true := by
    show (["dateAdded"] : List String).all
      (fun c => (["title", "directedBy", "dateAdded"] : List String).contains c) = true
    decide
  have hdir' : "directedBy" ∈ (⟨["title", "directedBy", "dateAdded"], [r1, r2, r3]⟩ :
      Table α).cols.filter (fun c => !((["dateAdded"] : List String).contains c)) := by
    show "directedBy" ∈ (["title", "directedBy", "dateAdded"] : List String).filter
      (fun c => !((["dateAdded"] : List String).contains c))
    decide
  have htit' : "title" ∈ (⟨["title", "directedBy", "dateAdded"], [r1, r2, r3]⟩ :
      Table α).cols.filter (fun c => !((["dateAdded"] : List String).contains c)) := by
    show "title" ∈ (["title", "directedBy", "dateAdded"] : List String).filter
      (fun c => !((["dateAdded"] : List String).contains c))
    decide
  rcases pipeline_isSome ["dateAdded"] false
      ⟨["title", "directedBy", "dateAdded"], [r1, r2, r3]⟩ hdrop hdir' htit' with ⟨b, hb⟩
  rcases pipeline_spec hb with ⟨hbc, hbl, hbs⟩
  have hcols : b.cols = ["title", "directedBy"] := by
    rw [hbc]
    show (["title", "directedBy", "dateAdded"] : List String).filter
      (fun c => !((["dateAdded"] : List String).contains c)) = ["title", "directedBy"]
    decide
  have hlen : b.rows.length = 3 := by
    rw [hbl]
    rfl
  constructor
  · rw [hread]
  · rw [csvRun_eq, runWith_of hds hb]
    simp only [onRun, onSome]
    rw [hres0]
    exact ⟨hcols, hlen, hbs⟩

/-- Claim C7.  When the accumulated result does not yet carry a dropped
column, it still does not after any successful `run`: dateAdded stays
absent for the CSV and TXT processors, and both dateAdded and avgRating
stay absent for the JSON processor.  Each processor acts on its own
independently quantified instance, and the text processors need no
assumption about `avgRating`, so their part chains across repeated runs
even when their result carries an `avgRating` column. -/
theorem run_drops_columns [LinearOrder α] [Inhabited α]
    (stA stc stB stt stC stj : ProcState α)
    (hdA : lacksCol stA.result "dateAdded" = true)
    (hc : csvRun stA = some stc)
    (hdB : lacksCol stB.result "dateAdded" = true)
    (ht : txtRun stB = some stt)
    (hdC : lacksCol stC.result "dateAdded" = true)
    (haC : lacksCol stC.result "avgRating" = true)
    (hj : jsonRun stC = some stj) :
    lacksCol stc.result "dateAdded" = true ∧ lacksCol stt.result "dateAdded" = true ∧
    lacksCol stj.result "dateAdded" = true ∧ lacksCol stj.result "avgRating" = true := by
  rw [csvRun_eq] at hc
  rw [txtRun_eq] at ht
  rw [jsonRun_eq] at hj
  exact ⟨runWith_lacks (by decide) hdA hc, runWith_lacks (by decide) hdB ht,
    runWith_lacks (by decide) hdC hj, runWith_lacks (by decide) haC hj⟩

/-- Witness for C7.  The CSV instance is a second run whose accumulated
result already carries `avgRating` (the state after a first run on
four-column data), the TXT instance runs over a dataset with no
`avgRating` at all, and the JSON instance runs fresh on four-column
data. -/
theorem run_drops_columns_witness :
    lacksCol (⟨some ⟨["title", "directedBy", "dateAdded", "avgRating"], [[5, 6, 7, 8]]⟩,
      some ⟨["title", "directedBy", "avgRating"], [[5, 6, 8], [5, 6, 8]]⟩, []⟩ :
        ProcState Nat).result "dateAdded" = true ∧
    lacksCol (⟨some ⟨["title", "directedBy", "dateAdded"], [[5, 6, 7]]⟩,
      some ⟨["title", "directedBy"], [[5, 6]]⟩, []⟩ :
        ProcState Nat).result "dateAdded" = true ∧
    lacksCol (⟨some ⟨["title", "directedBy", "dateAdded", "avgRating"], [[5, 6, 7, 8]]⟩,
      some ⟨["title", "directedBy"], [[5, 6]]⟩, []⟩ :
        ProcState Nat).result "dateAdded" = true ∧
    lacksCol (⟨some ⟨["title", "directedBy", "dateAdded", "avgRating"], [[5, 6, 7, 8]]⟩,
      some ⟨["title", "directedBy"], [[5, 6]]⟩, []⟩ :
        ProcState Nat).result "avgRating" = true :=
  run_drops_columns
    ⟨some ⟨["title", "directedBy", "dateAdded", "avgRating"], [[5, 6, 7, 8]]⟩,
      some ⟨["title", "directedBy", "avgRating"], [[5, 6, 8]]⟩, []⟩
    ⟨some ⟨["title", "directedBy", "dateAdded", "avgRating"], [[5, 6, 7, 8]]⟩,
      some ⟨["title", "directedBy", "avgRating"], [[5, 6, 8], [5, 6, 8]]⟩, []⟩
    ⟨some ⟨["title", "directedBy", "dateAdded"], [[5, 6, 7]]⟩, none, []⟩
    ⟨some ⟨["title", "directedBy", "dateAdded"], [[5, 6, 7]]⟩,
      some ⟨["title", "directedBy"], [[5, 6]]⟩, []⟩
    ⟨some ⟨["title", "directedBy", "dateAdded", "avgRating"], [[5, 6, 7, 8]]⟩, none, []⟩
    ⟨some ⟨["title", "directedBy", "dateAdded", "avgRating"], [[5, 6, 7, 8]]⟩,
      some ⟨["title", "directedBy"], [[5, 6]]⟩, []⟩
    (by decide) (by decide) rfl (by decide) rfl rfl (by decide)

/-- Claim C10.  For each processor separately, on its own instance: a
successful `run` never modifies the dataset, and only appends to the
result; with the dataset fixed, a second `run` appends a batch equal to
the batch appended by the first.  Each processor's instance is
quantified independently, so the statement covers text-processor
instances whose dataset lacks the `avgRating` column. -/
theorem run_frame_equal_batches [LinearOrder α] [Inhabited α]
    (stA stA1 stA2 stB stB1 stB2 stC stC1 stC2 : ProcState α)
    (hA1 : csvRun stA = some stA1) (hA2 : csvRun stA1 = some stA2)
    (hB1 : txtRun stB = some stB1) (hB2 : txtRun stB1 = some stB2)
    (hC1 : jsonRun stC = some stC1) (hC2 : jsonRun stC1 = some stC2) :
    (stA1.dataset = stA.dataset ∧ stA2.dataset = stA.dataset ∧
      resultRows stA1.result = resultRows stA.result ++ appendedBatch stA stA1 ∧
      appendedBatch stA1 stA2 = appendedBatch stA stA1) ∧
    (stB1.dataset = stB.dataset ∧ stB2.dataset = stB.dataset ∧
      resultRows stB1.result = resultRows stB.result ++ appendedBatch stB stB1 ∧
      appendedBatch stB1 stB2 = appendedBatch stB stB1) ∧
    (stC1.dataset = stC.dataset ∧ stC2.dataset = stC.dataset ∧
      resultRows stC1.result = resultRows stC.result ++ appendedBatch stC stC1 ∧
      appendedBatch stC1 stC2 = appendedBatch stC stC1) := by
  rw [csvRun_eq] at hA1
  rw [csvRun_eq] at hA2
  rw [txtRun_eq] at hB1
  rw [txtRun_eq] at hB2
  rw [jsonRun_eq] at hC1
  rw [jsonRun_eq] at hC2
  exact ⟨runWith_frame hA1 hA2, runWith_frame hB1 hB2, runWith_frame hC1 hC2⟩

/-- Witness for C10.  The CSV and TXT instances run twice over a
three-column dataset with no `avgRating`, the JSON instance twice over a
four-column dataset; the states after each run are spelled out. -/
theorem run_frame_equal_batches_witness :
    ((⟨some ⟨["title", "directedBy", "dateAdded"], [[9, 8, 7]]⟩,
        some ⟨["title", "directedBy"], [[9, 8]]⟩, []⟩ : ProcState Nat).dataset =
        (⟨some ⟨["title", "directedBy", "dateAdded"], [[9, 8, 7]]⟩,
          none, []⟩ : ProcState Nat).dataset ∧
      (⟨some ⟨["title", "directedBy", "dateAdded"], [[9, 8, 7]]⟩,
        some ⟨["title", "directedBy"], [[9, 8], [9, 8]]⟩, []⟩ : ProcState Nat).dataset =
        (⟨some ⟨["title", "directedBy", "dateAdded"], [[9, 8, 7]]⟩,
          none, []⟩ : ProcState Nat).dataset ∧
      resultRows (⟨some ⟨["title", "directedBy", "dateAdded"], [[9, 8, 7]]⟩,
          some ⟨["title", "directedBy"], [[9, 8]]⟩, []⟩ : ProcState Nat).result =
        resultRows (⟨some ⟨["title", "directedBy", "dateAdded"], [[9, 8, 7]]⟩,
          none, []⟩ : ProcState Nat).result ++
          appendedBatch
            ⟨some ⟨["title", "directedBy", "dateAdded"], [[9, 8, 7]]⟩, none, []⟩
            ⟨some ⟨["title", "directedBy", "dateAdded"], [[9, 8, 7]]⟩,
              some ⟨["title", "directedBy"], [[9, 8]]⟩, []⟩ ∧
      appendedBatch
          ⟨some ⟨["title", "directedBy", "dateAdded"], [[9, 8, 7]]⟩,
            some ⟨["title", "directedBy"], [[9, 8]]⟩, []⟩
          ⟨some ⟨["title", "directedBy", "dateAdded"], [[9, 8, 7]]⟩,
            some ⟨["title", "directedBy"], [[9, 8], [9, 8]]⟩, []⟩ =
        appendedBatch
          ⟨some ⟨["title", "directedBy", "dateAdded"], [[9, 8, 7]]⟩, none, []⟩
          ⟨some ⟨["title", "directedBy", "dateAdded"], [[9, 8, 7]]⟩,
            some ⟨["title", "directedBy"], [[9, 8]]⟩, []⟩) ∧
    ((⟨some ⟨["title", "directedBy", "dateAdded"], [[9, 8, 7]]⟩,
        some ⟨["title", "directedBy"], [[9, 8]]⟩, []⟩ : ProcState Nat).dataset =
        (⟨some ⟨["title", "directedBy", "dateAdded"], [[9, 8, 7]]⟩,
          none, []⟩ : ProcState Nat).dataset ∧
      (⟨some ⟨["title", "directedBy", "dateAdded"], [[9, 8, 7]]⟩,
        some ⟨["title", "directedBy"], [[9, 8], [9, 8]]⟩, []⟩ : ProcState Nat).dataset =
        (⟨some ⟨["title", "directedBy", "dateAdded"], [[9, 8, 7]]⟩,
          none, []⟩ : ProcState Nat).dataset ∧
      resultRows (⟨some ⟨["title", "directedBy", "dateAdded"], [[9, 8, 7]]⟩,
          some ⟨["title", "directedBy"], [[9, 8]]⟩, []⟩ : ProcState Nat).result =
        resultRows (⟨some ⟨["title", "directedBy", "dateAdded"], [[9, 8, 7]]⟩,
          none, []⟩ : ProcState Nat).result ++
          appendedBatch
            ⟨some ⟨["title", "directedBy", "dateAdded"], [[9, 8, 7]]⟩, none, []⟩
            ⟨some ⟨["title", "directedBy", "dateAdded"], [[9, 8, 7]]⟩,
              some ⟨["title", "directedBy"], [[9, 8]]⟩, []⟩ ∧
      appendedBatch
          ⟨some ⟨["title", "directedBy", "dateAdded"], [[9, 8, 7]]⟩,
            some ⟨["title", "directedBy"], [[9, 8]]⟩, []⟩
          ⟨some ⟨["title", "directedBy", "dateAdded"], [[9, 8, 7]]⟩,
            some ⟨["title", "directedBy"], [[9, 8], [9, 8]]⟩, []⟩ =
        appendedBatch
          ⟨some ⟨["title", "directedBy", "dateAdded"], [[9, 8, 7]]⟩, none, []⟩
          ⟨some ⟨["title", "directedBy", "dateAdded"], [[9, 8, 7]]⟩,
            some ⟨["title", "directedBy"], [[9, 8]]⟩, []⟩) ∧
    ((⟨some ⟨["title", "directedBy", "dateAdded", "avgRating"], [[9, 8, 7, 6]]⟩,
        some ⟨["title", "directedBy"], [[9, 8]]⟩, []⟩ : ProcState Nat).dataset =
        (⟨some ⟨["title", "directedBy", "dateAdded", "avgRating"], [[9, 8, 7, 6]]⟩,
          none, []⟩ : ProcState Nat).dataset ∧
      (⟨some ⟨["title", "directedBy", "dateAdded", "avgRating"], [[9, 8, 7, 6]]⟩,
        some ⟨["title", "directedBy"], [[9, 8], [9, 8]]⟩, []⟩ : ProcState Nat).dataset =
        (⟨some ⟨["title", "directedBy", "dateAdded", "avgRating"], [[9, 8, 7, 6]]⟩,
          none, []⟩ : ProcState Nat).dataset ∧
      resultRows (⟨some ⟨["title", "directedBy", "dateAdded", "avgRating"], [[9, 8, 7, 6]]⟩,
          some ⟨["title", "directedBy"], [[9, 8]]⟩, []⟩ : ProcState Nat).result =
        resultRows (⟨some ⟨["title", "directedBy", "dateAdded", "avgRating"], [[9, 8, 7, 6]]⟩,
          none, []⟩ : ProcState Nat).result ++
          appendedBatch
            ⟨some ⟨["title", "directedBy", "dateAdded", "avgRating"], [[9, 8, 7, 6]]⟩, none, []⟩
            ⟨some ⟨["title", "directedBy", "dateAdded", "avgRating"], [[9, 8, 7, 6]]⟩,
              some ⟨["title", "directedBy"], [[9, 8]]⟩, []⟩ ∧
      appendedBatch
          ⟨some ⟨["title", "directedBy", "dateAdded", "avgRating"], [[9, 8, 7, 6]]⟩,
            some ⟨["title", "directedBy"], [[9, 8]]⟩, []⟩
          ⟨some ⟨["title", "directedBy", "dateAdded", "avgRating"], [[9, 8, 7, 6]]⟩,
            some ⟨["title", "directedBy"], [[9, 8], [9, 8]]⟩, []⟩ =
        appendedBatch
          ⟨some ⟨["title", "directedBy", "dateAdded", "avgRating"], [[9, 8, 7, 6]]⟩, none, []⟩
          ⟨some ⟨["title", "directedBy", "dateAdded", "avgRating"], [[9, 8, 7, 6]]⟩,
            some ⟨["title", "directedBy"], [[9, 8]]⟩, []⟩) :=
  run_frame_equal_batches
    ⟨some ⟨["title", "directedBy", "dateAdded"], [[9, 8, 7]]⟩, none, []⟩
    ⟨some ⟨["title", "directedBy", "dateAdded"], [[9, 8, 7]]⟩,
      some ⟨["title", "directedBy"], [[9, 8]]⟩, []⟩
    ⟨some ⟨["title", "directedBy", "dateAdded"], [[9, 8, 7]]⟩,
      some ⟨["title", "directedBy"], [[9, 8], [9, 8]]⟩, []⟩
    ⟨some ⟨["title", "directedBy", "dateAdded"], [[9, 8, 7]]⟩, none, []⟩
    ⟨some ⟨["title", "directedBy", "dateAdded"], [[9, 8, 7]]⟩,
      some ⟨["title", "directedBy"], [[9, 8]]⟩, []⟩
    ⟨some ⟨["title", "directedBy", "dateAdded"], [[9, 8, 7]]⟩,
      some ⟨["title", "directedBy"], [[9, 8], [9, 8]]⟩, []⟩
    ⟨some ⟨["title", "directedBy", "dateAdded", "avgRating"], [[9, 8, 7, 6]]⟩, none, []⟩
    ⟨some ⟨["title", "directedBy", "dateAdded", "avgRating"], [[9, 8, 7, 6]]⟩,
      some ⟨["title", "directedBy"], [[9, 8]]⟩, []⟩
    ⟨some ⟨["title", "directedBy", "dateAdded", "avgRating"], [[9, 8, 7, 6]]⟩,
      some ⟨["title", "directedBy"], [[9, 8], [9, 8]]⟩, []⟩
    (by decide) (by decide) (by decide) (by decide) (by decide) (by decide)

end Claims

end DaCoS
